import Mathlib

/-!
Verification of the AtlasOptimizer repository (src/tool.py, src/validator.py,
src/hdf5.py): a shallow embedding of the feedback controller (`Tool`) and the
diagnostic engine (`Validator`) over exact rational arithmetic (ℚ models the
Python floats), with the configuration file modelled as its list of lines
(`List String`) and spline evaluation (scipy `splrep`/`splev`, an external
collaborator) abstracted as a function parameter.
-/

namespace Atlas

/-! ## String containment (Python's `in` operator on strings) -/

/-- Does the first character list begin the second one? -/
def listLeads : List Char → List Char → Bool
  | [], _ => true
  | _ :: _, [] => false
  | a :: as, b :: bs => a == b && listLeads as bs

/-- Does the first character list occur contiguously inside the second one? -/
def listOccurs : List Char → List Char → Bool
  | sub, [] => listLeads sub []
  | sub, c :: cs => listLeads sub (c :: cs) || listOccurs sub cs

/-- Python's substring test `sub in s`. -/
def strIn (sub s : String) : Bool := listOccurs sub.data s.data

/-! ## Tool: adaptive type validation (tool.py, `Tool.__set_adaptive_type`) -/

/-- Errors raised by `Tool` (each a distinct `ValueError` in the source). -/
inductive ToolErr where
  | invalidAdaptiveType (t : String)
  | configOptionAlreadySet (key : String)
  deriving DecidableEq, Repr

/-- `Tool.__set_adaptive_type`: rejects every type outside `["pressure"]`,
and maps `"pressure"` to the capitalised channel name `"Pressure"`. -/
def setAdaptiveType (adaptive_type : String) : Except ToolErr String :=
  if adaptive_type ∈ ["pressure"] then
    Except.ok "Pressure"
  else
    Except.error (ToolErr.invalidAdaptiveType adaptive_type)

/-! ## ConfigStore (tool.py, `Tool.__check_none` and `Tool.__change_value`)

The `parameter.ini` file is modelled as its list of lines.  The directory
scan `Tool.__find_parameter_ini` is file-system plumbing (out of scope per
the spec); the file content is passed in directly. -/

/-- `Tool.__check_none`: scans every line of the file and raises as soon as
some line contains `option` but does not contain the text `option=None`.
The file is opened read-only, so on success its content is unchanged and is
returned as is. -/
def checkNone (lines : List String) (option : String) : Except ToolErr (List String) :=
  if lines.any (fun line => strIn option line && !(strIn (option ++ "=None") line)) then
    Except.error (ToolErr.configOptionAlreadySet option)
  else
    Except.ok lines

/-- `Tool.__change_value`: the loop assigns `lines[index] = f"{option}={value}\n"`
exactly at the indices whose line contains `option`, then writes the whole
file back.  `value` arrives already rendered to text (Python's f-string
formatting of the numeric value is done by the caller-supplied renderer). -/
def changeValue (lines : List String) (option : String) (value : String) : List String :=
  match lines with
  | [] => []
  | line :: rest =>
    (if strIn option line then option ++ "=" ++ value ++ "\n" else line)
      :: changeValue rest option value

/-! ## Numeric helpers -/

/-- Python's `int()` on a real value: truncation toward zero. -/
def pyInt (q : ℚ) : ℤ := if 0 ≤ q then ⌊q⌋ else ⌈q⌉

/-- `np.max` over a data column (NumPy raises on an empty array; the checks
below are only ever invoked on snapshot columns with at least one element). -/
def npMax : List ℚ → ℚ
  | [] => 0
  | v :: vs => vs.foldl max v

/-- `np.min` over a data column (same proviso as `npMax`). -/
def npMin : List ℚ → ℚ
  | [] => 0
  | v :: vs => vs.foldl min v

/-- `np.mean`: the sum of the column divided by its length. -/
def npMean (vs : List ℚ) : ℚ := vs.foldl (· + ·) 0 / vs.length

/-! ## Tool construction and fit (tool.py) -/

/-- The fixed numeric construction parameters of a `Tool` (tool.py
`Tool.__init__`). -/
structure ToolParams where
  specie : ℕ
  surfaceflux : ℕ
  cell_size : ℚ
  particles_in_element : ℚ
  boltzmann_constant : ℚ
  temperature : ℚ
  deriving DecidableEq, Repr

/-- The formula of `Tool.__compute_macro_particles`:
`pressure / (boltzmann_constant · temperature) · cell_size³ / particles_in_element`. -/
def macroParticleFactor (p : ToolParams) (pressure : ℚ) : ℚ :=
  pressure / (p.boltzmann_constant * p.temperature) * p.cell_size ^ 3
    / p.particles_in_element

/-- The config key `Part-Species{specie}-MacroParticleFactor`. -/
def macroParticlesKey (p : ToolParams) : String :=
  "Part-Species" ++ toString p.specie ++ "-MacroParticleFactor"

/-- The adaptive option key
`Part-Species{specie}-Surfaceflux{surfaceflux}-Adaptive-{adaptive_type}`
(tool.py `Tool.__set_option`). -/
def optionKey (p : ToolParams) (adaptive : String) : String :=
  "Part-Species" ++ toString p.specie ++ "-Surfaceflux" ++ toString p.surfaceflux
    ++ "-Adaptive-" ++ adaptive

/-- `Tool.__compute_macro_particles`: recomputes the macro-particle factor
from `pressure` and rewrites its config line with the factor truncated by
Python's `int()`. -/
def computeMacroParticles (p : ToolParams) (pressure : ℚ) (lines : List String) :
    List String :=
  changeValue lines (macroParticlesKey p) (toString (pyInt (macroParticleFactor p pressure)))

/-- The mutable state of a `Tool` paired with the configuration file content. -/
structure ToolState where
  pressure : ℚ
  fitted : Bool
  lines : List String
  deriving DecidableEq, Repr

/-- `Tool.__init__` after the `parameter.ini` lookup: validate the adaptive
type, require the macro-particle key unset, then (`__set_option`) require the
adaptive option key unset and write the initial pressure, then
(`__compute_macro_particles`) write the initial macro-particle factor.
`fmt` renders a float to the text Python's f-string would produce for it. -/
def toolInit (p : ToolParams) (adaptive_type : String) (pressure : ℚ)
    (fmt : ℚ → String) (lines : List String) : Except ToolErr ToolState :=
  match setAdaptiveType adaptive_type with
  | Except.error e => Except.error e
  | Except.ok adaptive =>
    match checkNone lines (macroParticlesKey p) with
    | Except.error e => Except.error e
    | Except.ok lines =>
      match checkNone lines (optionKey p adaptive) with
      | Except.error e => Except.error e
      | Except.ok lines =>
        Except.ok ⟨pressure, false,
          computeMacroParticles p pressure
            (changeValue lines (optionKey p adaptive) (fmt pressure))⟩

/-- `Tool.fit`: iterates over the `(column name, last-row value)` pairs of
the freshly re-read `PartAnalyze.csv` table (the pandas load, the zero-row
filtering and the `[-1, index]` last-row indexing belong to the external
table collaborator).  A column whose name contains the target triggers
either the converged early `return` (`fitted = True`, nothing written) or
the damped update `pressure = |pressure + pressure·rate·error_rate|`
followed by `__change_value` on the adaptive option and
`__compute_macro_particles` on the new pressure; a non-matching column is
skipped. -/
def fit (p : ToolParams) (option target : String) (desired rate accuracy : ℚ)
    (fmt : ℚ → String) : List (String × ℚ) → ToolState → ToolState
  | [], st => st
  | (column, steady_value) :: rest, st =>
    if strIn target column then
      let error_rate := (steady_value - desired) / desired
      if |error_rate| < accuracy then
        { st with fitted := true }
      else
        let pressure := |st.pressure + st.pressure * rate * error_rate|
        let lines := computeMacroParticles p pressure
          (changeValue st.lines option (fmt pressure))
        fit p option target desired rate accuracy fmt rest
          { pressure := pressure, fitted := st.fitted, lines := lines }
    else
      fit p option target desired rate accuracy fmt rest st

/-! ## Validator (validator.py) -/

/-- The errors raised by `Validator` (each a distinct `Exception` in the
source), named after the spec's error-kind table. -/
inductive DiagErr where
  | notSteadyState (column : String) (slope : ℚ)
  | noSnapshotFiles
  | collisionProbabilityOutOfRange (value : ℚ)
  | insufficientParticleCount
  | collisionScaleRatioTooHigh (value : ℚ)
  deriving DecidableEq, Repr

/-- Python's trailing slice `x[-k:]`: the last `k` elements — except that
`k = 0` (possible, since `k = int(len·determination_rate)` rounds down)
yields the whole list. -/
def pyTail (k : ℕ) (xs : List ℚ) : List ℚ :=
  if k = 0 then xs else xs.drop (xs.length - k)

/-- `int(len(self.__time) * self.determination_rate)`: the trailing-window
length in samples (the rate is a fraction in `[0, 1]`). -/
def steadyWindowLen (n : ℕ) (determination_rate : ℚ) : ℕ :=
  (pyInt ((n : ℚ) * determination_rate)).toNat

/-- The slope accumulation of `Validator.__diagnosis_steady_state`:
`total_slope` adds `splev(x_point, tck, der)` — signed when `periodicity`
is set, in absolute value otherwise — over every sample time of the
trailing window `x[-k:]`, and `mean_slope` divides by the total sample
count `x.shape[0]`.  `deriv` stands for the fitted spline's derivative
`splev(·, tck, der=self.spline_derivative)` (scipy, external). -/
def meanSlope (deriv : ℚ → ℚ) (periodicity : Bool) (k : ℕ) (x : List ℚ) : ℚ :=
  let total_slope := (pyTail k x).foldl
    (fun acc x_point => acc + (if periodicity then deriv x_point else |deriv x_point|)) 0
  total_slope / x.length

/-- The columns the steady-state loop inspects: those whose name contains
`Massflow` or `Pressure`. -/
def steadyTracked (column : String) : Bool :=
  strIn "Massflow" column || strIn "Pressure" column

/-- `Validator.__diagnosis_steady_state`: for each massflow/pressure column,
compare its mean slope to the threshold: `mean_slope < threshold` continues,
`mean_slope > threshold` with `steady` set raises `NotSteadyState` naming
the column and its slope, and any other case (exact equality, or `steady`
unset) falls off the `if/elif` and continues.  `deriv column` abstracts the
spline derivative fitted to that column's normalized values
(`splrep`/`splev`, external); the plotting under `save` has no effect on
the outcome and is omitted. -/
def diagnosisSteadyState (deriv : String → ℚ → ℚ) (steady periodicity : Bool)
    (threshold : ℚ) (k : ℕ) (x : List ℚ) : List String → Except DiagErr Unit
  | [] => Except.ok ()
  | column :: rest =>
    if steadyTracked column then
      let mean_slope := meanSlope (deriv column) periodicity k x
      if mean_slope < threshold then
        diagnosisSteadyState deriv steady periodicity threshold k x rest
      else if mean_slope > threshold ∧ steady = true then
        Except.error (DiagErr.notSteadyState column mean_slope)
      else
        diagnosisSteadyState deriv steady periodicity threshold k x rest
    else
      diagnosisSteadyState deriv steady periodicity threshold k x rest

/-- `Validator.__diagnosis_collision_probability` over the most recent
snapshot's `(column name, element data)` pairs: the max-probability channel's
peak must stay below 1, and the mean-probability channel's midpoint of
(max, min) must lie strictly inside `(0.1, 1)`. -/
def diagnosisCollisionProbability : List (String × List ℚ) → Except DiagErr Unit
  | [] => Except.ok ()
  | (column, data) :: rest =>
    if strIn "DSMC_MaxCollProb" column then
      let collision_probability := npMax data
      if collision_probability < 1 then
        diagnosisCollisionProbability rest
      else
        Except.error (DiagErr.collisionProbabilityOutOfRange collision_probability)
    else if strIn "DSMC_MeanCollProb" column then
      let collision_probability := (npMax data + npMin data) / 2
      if 1/10 < collision_probability ∧ collision_probability < 1 then
        diagnosisCollisionProbability rest
      else
        Except.error (DiagErr.collisionProbabilityOutOfRange collision_probability)
    else
      diagnosisCollisionProbability rest

/-- `Validator.__diagnosis_num_of_particles`: the midpoint of (max, min) of
the simulation particle-count channel must be strictly greater than the
configured minimum. -/
def diagnosisNumOfParticles (min_middle : ℚ) :
    List (String × List ℚ) → Except DiagErr Unit
  | [] => Except.ok ()
  | (column, data) :: rest =>
    if strIn "Total_SimPartNum" column then
      let middle_num_of_particles := (npMax data + npMin data) / 2
      if middle_num_of_particles > min_middle then
        diagnosisNumOfParticles min_middle rest
      else
        Except.error DiagErr.insufficientParticleCount
    else
      diagnosisNumOfParticles min_middle rest

/-- `Validator.__is_mcx_over_mfp`: the mean of the
collision-scale-over-mean-free-path channel must stay below 1. -/
def isMcxOverMfp : List (String × List ℚ) → Except DiagErr Unit
  | [] => Except.ok ()
  | (column, data) :: rest =>
    if strIn "DSMC_MCS_over_MFP" column then
      let mcx_over_mfp := npMean data
      if mcx_over_mfp < 1 then
        isMcxOverMfp rest
      else
        Except.error (DiagErr.collisionScaleRatioTooHigh mcx_over_mfp)
    else
      isMcxOverMfp rest

/-- The checks `Validator.diagnosis` can run. -/
inductive CheckName where
  | steadyState
  | collisionProbability
  | numOfParticles
  | mcxOverMfp
  deriving DecidableEq, Repr

/-- Runs a list of `(enabled, name, body)` checks in order, recording each
check whose body ran and stopping at the first raised error. -/
def runChecks : List (Bool × CheckName × Except DiagErr Unit) →
    List CheckName × Option DiagErr
  | [] => ([], none)
  | (enabled, name, body) :: rest =>
    if enabled then
      match body with
      | Except.error e => ([name], some e)
      | Except.ok () =>
        let (names, err) := runChecks rest
        (name :: names, err)
    else
      runChecks rest

/-- The data a `Validator` works on: the time channel and column names of
`PartAnalyze.csv` (rows with a zero field already dropped by the loader),
the sorted `DSMCState` file list, the `ElemData` of the most recent
snapshot, and the per-column spline derivative. -/
structure ValidatorData where
  time : List ℚ
  columns : List String
  dsmc_state_files : List String
  snapshot : List (String × List ℚ)
  deriv : String → ℚ → ℚ

/-- `Validator.diagnosis`: runs the steady-state check, then requires at
least one `DSMCState` file (`__exist_dsmc_state_files` raises when the list
is empty), then runs each enabled snapshot check in the fixed order.  The
result pairs the checks whose body ran (in order) with the first raised
error, if any. -/
def diagnosis (v : ValidatorData) (determination_rate threshold : ℚ)
    (steady periodicity collision_probability num_of_particles mcx_over_mfp : Bool)
    (min_middle_num_of_particles_in_element : ℚ) : List CheckName × Option DiagErr :=
  let k := steadyWindowLen v.time.length determination_rate
  match diagnosisSteadyState v.deriv steady periodicity threshold k v.time v.columns with
  | Except.error e => ([CheckName.steadyState], some e)
  | Except.ok () =>
    if v.dsmc_state_files.length = 0 then
      ([CheckName.steadyState], some DiagErr.noSnapshotFiles)
    else
      let (names, err) := runChecks
        [(collision_probability, CheckName.collisionProbability,
            diagnosisCollisionProbability v.snapshot),
         (num_of_particles, CheckName.numOfParticles,
            diagnosisNumOfParticles min_middle_num_of_particles_in_element v.snapshot),
         (mcx_over_mfp, CheckName.mcxOverMfp, isMcxOverMfp v.snapshot)]
      (CheckName.steadyState :: names, err)

end Atlas

open Atlas

/-- Helper: `Tool.fit` leaves the state untouched on a run of columns none of
which contains the target. -/
theorem fit_skips_unmatched (p : ToolParams) (option target : String)
    (desired rate accuracy : ℚ) (fmt : ℚ → String) (cols : List (String × ℚ))
    (st : ToolState) (h : ∀ c ∈ cols, strIn target c.1 = false) :
    fit p option target desired rate accuracy fmt cols st = st := by
  induction cols with
  | nil => rfl
  | cons c rest ih =>
    have hc := h c (List.mem_cons_self c rest)
    simp only [fit, hc]
    exact ih (fun d hd => h d (List.mem_cons_of_mem c hd))

/-- Helper: a run of non-matching columns in front of the table does not
change what `Tool.fit` computes. -/
theorem fit_append_unmatched (p : ToolParams) (option target : String)
    (desired rate accuracy : ℚ) (fmt : ℚ → String) (pre cols : List (String × ℚ))
    (st : ToolState) (h : ∀ c ∈ pre, strIn target c.1 = false) :
    fit p option target desired rate accuracy fmt (pre ++ cols) st
      = fit p option target desired rate accuracy fmt cols st := by
  induction pre generalizing st with
  | nil => rfl
  | cons c rest ih =>
    have hc := h c (List.mem_cons_self c rest)
    simp only [List.cons_append, fit, hc]
    exact ih st (fun d hd => h d (List.mem_cons_of_mem c hd))

/-- C1 (counterexample): the claim says construction succeeds for both
`pressure` and `massflow`.  On a configuration on which `pressure`-type
construction does succeed (so the configuration is otherwise valid),
`massflow`-type construction fails with `InvalidAdaptiveType`. -/
theorem C1_counterexample :
    toolInit ⟨1, 1, 1, 1, 1, 1⟩ "massflow" 1 (fun _ => "1.0")
        ["Part-Species1-MacroParticleFactor=None\n",
         "Part-Species1-Surfaceflux1-Adaptive-Pressure=None\n"]
      = Except.error (ToolErr.invalidAdaptiveType "massflow")
    ∧ ∃ st, toolInit ⟨1, 1, 1, 1, 1, 1⟩ "pressure" 1 (fun _ => "1.0")
        ["Part-Species1-MacroParticleFactor=None\n",
         "Part-Species1-Surfaceflux1-Adaptive-Pressure=None\n"]
      = Except.ok st :=
  ⟨rfl, ⟨_, rfl⟩⟩

/-- C1 (amended): `pressure` is the only valid adaptive type.  For every
adaptive type other than `pressure` — `massflow` included — constructing the
controller fails with `InvalidAdaptiveType`; for `pressure`, on a
configuration whose macro-particle key and adaptive option key are unset,
construction succeeds. -/
theorem C1_adaptive_type :
    (∀ (p : ToolParams) (t : String) (pressure : ℚ) (fmt : ℚ → String)
        (lines : List String), t ≠ "pressure" →
      toolInit p t pressure fmt lines
        = Except.error (ToolErr.invalidAdaptiveType t))
    ∧ (∀ (p : ToolParams) (pressure : ℚ) (fmt : ℚ → String) (lines : List String),
        checkNone lines (macroParticlesKey p) = Except.ok lines →
        checkNone lines (optionKey p "Pressure") = Except.ok lines →
        ∃ st, toolInit p "pressure" pressure fmt lines = Except.ok st) := by
  constructor
  · intro p t pressure fmt lines ht
    simp only [toolInit, setAdaptiveType, List.mem_singleton, if_neg ht]
  · intro p pressure fmt lines h1 h2
    refine ⟨⟨pressure, false, computeMacroParticles p pressure
      (changeValue lines (optionKey p "Pressure") (fmt pressure))⟩, ?_⟩
    unfold toolInit
    simp only [show setAdaptiveType "pressure" = Except.ok "Pressure" from rfl, h1, h2]

/-- C1 (witness): the amended theorem applied at the type `massflow` and at
the type `pressure` on a configuration that mentions neither key. -/
theorem C1_witness :
    toolInit ⟨2, 3, 1, 1, 1, 1⟩ "massflow" 5 (fun _ => "5.0") ["x=1\n"]
      = Except.error (ToolErr.invalidAdaptiveType "massflow")
    ∧ ∃ st, toolInit ⟨1, 1, 1, 1, 1, 1⟩ "pressure" 1 (fun _ => "1.0") ["a=2\n"]
      = Except.ok st :=
  ⟨C1_adaptive_type.1 ⟨2, 3, 1, 1, 1, 1⟩ "massflow" 5 (fun _ => "5.0") ["x=1\n"]
      (by decide),
   C1_adaptive_type.2 ⟨1, 1, 1, 1, 1, 1⟩ 1 (fun _ => "1.0") ["a=2\n"] rfl rfl⟩

/-- C2: on every `fit` call whose target column's last sample yields relative
error `e = (steady_value − desired)/desired` with `accuracy ≤ |e|`, the
multiplicative update law sets the new pressure to
`|current + current·rate·e|` (any non-matching columns around the target
column are skipped). -/
theorem C2_update_law (p : ToolParams) (option target column : String)
    (desired rate accuracy steady_value : ℚ) (fmt : ℚ → String) (st : ToolState)
    (pre post : List (String × ℚ))
    (hpre : ∀ c ∈ pre, strIn target c.1 = false)
    (hpost : ∀ c ∈ post, strIn target c.1 = false)
    (hmatch : strIn target column = true)
    (herr : accuracy ≤ |(steady_value - desired) / desired|) :
    (fit p option target desired rate accuracy fmt
        (pre ++ (column, steady_value) :: post) st).pressure
      = |st.pressure + st.pressure * rate * ((steady_value - desired) / desired)| := by
  rw [fit_append_unmatched _ _ _ _ _ _ _ _ _ _ hpre]
  simp only [fit, hmatch, if_true, not_lt.mpr herr, if_false]
  rw [fit_skips_unmatched _ _ _ _ _ _ _ _ _ hpost]

/-- C2 (witness): with `desired = 100`, `current = 50`, `rate = 1/2` and
`steady_value = 80` the relative error is `−1/5 = −0.2` and the new pressure
is `45`. -/
theorem C2_witness :
    ((80 - 100) / 100 : ℚ) = -(1/5)
    ∧ (fit ⟨1, 1, 1, 1, 1, 1⟩ "Opt" "T" 100 (1/2) (1/20)
        (fun _ => "p") [("T", 80)] ⟨50, false, []⟩).pressure = 45 := by
  refine ⟨by norm_num, ?_⟩
  rw [show ([("T", (80:ℚ))]) = [] ++ ("T", (80:ℚ)) :: [] from rfl]
  rw [C2_update_law ⟨1, 1, 1, 1, 1, 1⟩ "Opt" "T" "T" 100 (1/2) (1/20) 80 (fun _ => "p")
      ⟨50, false, []⟩ [] [] (by simp) (by simp) (by decide) (by norm_num [abs])]
  norm_num [abs]

/-- C3: on every `fit` call whose target column's last value equals the
desired set-point exactly (relative error `0`), with a positive accuracy the
controller only sets `fitted := true`: the pressure and the configuration
file are left unchanged, whatever columns follow the target column. -/
theorem C3_converged (p : ToolParams) (option target column : String)
    (desired rate accuracy : ℚ) (fmt : ℚ → String) (st : ToolState)
    (pre rest : List (String × ℚ))
    (hpre : ∀ c ∈ pre, strIn target c.1 = false)
    (hmatch : strIn target column = true)
    (hacc : 0 < accuracy) :
    fit p option target desired rate accuracy fmt
        (pre ++ (column, desired) :: rest) st
      = { st with fitted := true } := by
  rw [fit_append_unmatched _ _ _ _ _ _ _ _ _ _ hpre]
  simp [fit, hmatch, hacc]

/-- C3 (witness): a concrete converged call: pressure `50` and the config
file are untouched, `fitted` flips to `true`. -/
theorem C3_witness :
    (fit ⟨1, 1, 1, 1, 1, 1⟩ "Opt" "T" 100 (1/2) (1/20) (fun _ => "p")
        [("T", 100)] ⟨50, false, ["a=1\n"]⟩)
      = ⟨50, true, ["a=1\n"]⟩ :=
  C3_converged ⟨1, 1, 1, 1, 1, 1⟩ "Opt" "T" "T" 100 (1/2) (1/20) (fun _ => "p")
    ⟨50, false, ["a=1\n"]⟩ [] [] (by simp) (by decide) (by norm_num)

/-- C4 (counterexample): the claim says a mean slope greater than *or equal
to* the threshold fails the enabled steady-state check.  With one `Pressure`
column whose mean slope equals the threshold `1/2` exactly, the check
passes. -/
theorem C4_counterexample :
    meanSlope ((fun _ _ => 1) "Pressure") false 1 [0, 1] = 1/2
    ∧ diagnosisSteadyState (fun _ _ => 1) true false (1/2) 1 [0, 1] ["Pressure"]
      = Except.ok () := by
  constructor
  · norm_num [meanSlope, pyTail]
  · norm_num [diagnosisSteadyState, meanSlope, pyTail, steadyTracked]

/-- C4 (amended): with the steady-state check enabled, the check passes iff
every massflow-like or pressure-like column's mean slope is at most the
threshold (exact equality passes); it fails with `NotSteadyState` only on a
tracked column whose mean slope is strictly greater than the threshold, and
the error names that column and its slope. -/
theorem C4_steady_threshold (deriv : String → ℚ → ℚ) (periodicity : Bool)
    (threshold : ℚ) (k : ℕ) (x : List ℚ) (columns : List String) :
    (diagnosisSteadyState deriv true periodicity threshold k x columns = Except.ok ()
      ↔ ∀ c ∈ columns, steadyTracked c = true →
          meanSlope (deriv c) periodicity k x ≤ threshold)
    ∧ ∀ c s, diagnosisSteadyState deriv true periodicity threshold k x columns
          = Except.error (DiagErr.notSteadyState c s) →
        c ∈ columns ∧ steadyTracked c = true
          ∧ s = meanSlope (deriv c) periodicity k x ∧ threshold < s := by
  induction columns with
  | nil => simp [diagnosisSteadyState]
  | cons col rest ih =>
    by_cases htr : steadyTracked col = true
    · by_cases hlt : meanSlope (deriv col) periodicity k x < threshold
      · constructor
        · rw [show diagnosisSteadyState deriv true periodicity threshold k x (col :: rest)
              = diagnosisSteadyState deriv true periodicity threshold k x rest from by
            simp [diagnosisSteadyState, htr, hlt]]
          rw [ih.1]
          constructor
          · intro hall
            intro c hc
            rcases List.mem_cons.mp hc with hceq | hcr
            · subst hceq; exact fun _ => le_of_lt hlt
            · exact hall c hcr
          · intro hall c hc
            exact hall c (List.mem_cons_of_mem _ hc)
        · intro c s herr
          rw [show diagnosisSteadyState deriv true periodicity threshold k x (col :: rest)
              = diagnosisSteadyState deriv true periodicity threshold k x rest from by
            simp [diagnosisSteadyState, htr, hlt]] at herr
          obtain ⟨h1, h2, h3, h4⟩ := ih.2 c s herr
          exact ⟨List.mem_cons_of_mem _ h1, h2, h3, h4⟩
      · by_cases hgt : threshold < meanSlope (deriv col) periodicity k x
        · have herr : diagnosisSteadyState deriv true periodicity threshold k x (col :: rest)
              = Except.error (DiagErr.notSteadyState col
                  (meanSlope (deriv col) periodicity k x)) := by
            simp [diagnosisSteadyState, htr, hlt, hgt]
          constructor
          · rw [herr]
            constructor
            · intro hcontra
              exact absurd hcontra (by simp)
            · intro hall
              exact absurd (hall col (List.mem_cons_self col rest) htr) (not_le.mpr hgt)
          · intro c s hcs
            rw [herr] at hcs
            simp only [Except.error.injEq, DiagErr.notSteadyState.injEq] at hcs
            obtain ⟨hc, hs⟩ := hcs
            subst hc
            subst hs
            exact ⟨List.mem_cons_self _ _, htr, rfl, hgt⟩
        · have heq : meanSlope (deriv col) periodicity k x = threshold :=
            le_antisymm (not_lt.mp hgt) (not_lt.mp hlt)
          have hskip : diagnosisSteadyState deriv true periodicity threshold k x (col :: rest)
              = diagnosisSteadyState deriv true periodicity threshold k x rest := by
            simp [diagnosisSteadyState, htr, hlt, hgt]
          constructor
          · rw [hskip, ih.1]
            constructor
            · intro hall c hc
              rcases List.mem_cons.mp hc with hceq | hcr
              · subst hceq; exact fun _ => le_of_eq heq
              · exact hall c hcr
            · intro hall c hc
              exact hall c (List.mem_cons_of_mem _ hc)
          · intro c s hcs
            rw [hskip] at hcs
            obtain ⟨h1, h2, h3, h4⟩ := ih.2 c s hcs
            exact ⟨List.mem_cons_of_mem _ h1, h2, h3, h4⟩
    · have hskip : diagnosisSteadyState deriv true periodicity threshold k x (col :: rest)
          = diagnosisSteadyState deriv true periodicity threshold k x rest := by
        simp [diagnosisSteadyState, htr]
      constructor
      · rw [hskip, ih.1]
        constructor
        · intro hall c hc
          rcases List.mem_cons.mp hc with hceq | hcr
          · subst hceq; intro hcc; exact absurd hcc htr
          · exact hall c hcr
        · intro hall c hc
          exact hall c (List.mem_cons_of_mem _ hc)
      · intro c s hcs
        rw [hskip] at hcs
        obtain ⟨h1, h2, h3, h4⟩ := ih.2 c s hcs
        exact ⟨List.mem_cons_of_mem _ h1, h2, h3, h4⟩

/-- C4 (witness): the amended theorem applied to one `Pressure` column with
zero derivative: every tracked slope is at most the threshold, so the check
passes. -/
theorem C4_witness :
    diagnosisSteadyState (fun _ _ => 0) true false (1/2) 1 [0, 1] ["Pressure"]
      = Except.ok () :=
  (C4_steady_threshold (fun _ _ => 0) false (1/2) 1 [0, 1] ["Pressure"]).1.mpr
    (by intro c hc htr; norm_num [meanSlope, pyTail])

/-- Helper: accumulating `acc + f t` over a list starting from `a` equals
`a` plus the sum of the mapped list. -/
theorem foldl_add_map_sum (f : ℚ → ℚ) (l : List ℚ) (a : ℚ) :
    l.foldl (fun acc t => acc + f t) a = a + (l.map f).sum := by
  induction l generalizing a with
  | nil => simp
  | cons t ts ih => simp [ih, add_assoc]

/-- C5: the steady-state metric is the sum, over each sample time of the
trailing window `x[-k:]`, of the spline derivative — signed when
`periodicity` is set, in absolute value otherwise — divided by the total
number of samples `x.length` of the series (not the window size). -/
theorem C5_mean_slope_formula (deriv : ℚ → ℚ) (periodicity : Bool) (k : ℕ)
    (x : List ℚ) :
    meanSlope deriv periodicity k x
      = ((pyTail k x).map
          (fun t => if periodicity then deriv t else |deriv t|)).sum / x.length := by
  simp [meanSlope, foldl_add_map_sum]

/-- C6: the particle-sufficiency check on the particle-count channel fails
with `InsufficientParticleCount` when the midpoint of (max, min) equals the
configured minimum exactly (strict `>` is required), and passes when the
midpoint is one unit above the minimum. -/
theorem C6_particle_boundary (column : String) (data : List ℚ) (m : ℚ)
    (hname : strIn "Total_SimPartNum" column = true) :
    ((npMax data + npMin data) / 2 = m →
      diagnosisNumOfParticles m [(column, data)]
        = Except.error DiagErr.insufficientParticleCount)
    ∧ ((npMax data + npMin data) / 2 = m + 1 →
      diagnosisNumOfParticles m [(column, data)] = Except.ok ()) := by
  constructor
  · intro hmid
    simp [diagnosisNumOfParticles, hname, hmid, lt_irrefl]
  · intro hmid
    simp [diagnosisNumOfParticles, hname, hmid, lt_add_one]

/-- C6 (witness): with minimum `40`, a channel of constant value `40`
(midpoint `40`) fails and a channel of constant value `41` (midpoint `41`)
passes. -/
theorem C6_witness :
    diagnosisNumOfParticles 40 [("Total_SimPartNum", [40])]
      = Except.error DiagErr.insufficientParticleCount
    ∧ diagnosisNumOfParticles 40 [("Total_SimPartNum", [41])] = Except.ok () :=
  ⟨(C6_particle_boundary "Total_SimPartNum" [40] 40 (by decide)).1
      (by norm_num [npMax, npMin]),
   (C6_particle_boundary "Total_SimPartNum" [41] 40 (by decide)).2
      (by norm_num [npMax, npMin])⟩

/-- C7: `Tool.__check_none` (the controller's requireUnset) fails with
`ConfigOptionAlreadySet` iff some line of the file contains the key without
the unset text `key=None`; on a key whose every occurrence is unset it
succeeds and returns the file's lines unchanged (the file is only read). -/
theorem C7_require_unset (lines : List String) (key : String) :
    (checkNone lines key = Except.error (ToolErr.configOptionAlreadySet key)
      ↔ ∃ line ∈ lines, strIn key line = true ∧ strIn (key ++ "=None") line = false)
    ∧ ((∀ line ∈ lines, strIn key line = true → strIn (key ++ "=None") line = true) →
      checkNone lines key = Except.ok lines) := by
  have hiff : (lines.any (fun line => strIn key line && !(strIn (key ++ "=None") line)) = true)
      ↔ ∃ line ∈ lines, strIn key line = true ∧ strIn (key ++ "=None") line = false := by
    simp [List.any_eq_true]
  constructor
  · by_cases h : lines.any (fun line => strIn key line && !(strIn (key ++ "=None") line)) = true
    · simp [checkNone, h, hiff.mp h]
    · simp only [checkNone, if_neg h]
      constructor
      · intro hcontra
        exact absurd hcontra (by simp)
      · intro hx
        exact absurd (hiff.mpr hx) h
  · intro hall
    have h : lines.any (fun line => strIn key line && !(strIn (key ++ "=None") line)) = false := by
      rw [Bool.eq_false_iff]
      intro hc
      obtain ⟨line, hmem, h1, h2⟩ := hiff.mp hc
      rw [hall line hmem h1] at h2
      exact absurd h2 (by simp)
    simp [checkNone, h]

/-- C7 (witness): an unset occurrence of `key` passes with the file
unchanged; a line `key=2` fails with `ConfigOptionAlreadySet`. -/
theorem C7_witness :
    checkNone ["a=1\n", "key=None\n"] "key" = Except.ok ["a=1\n", "key=None\n"]
    ∧ checkNone ["key=2\n"] "key"
      = Except.error (ToolErr.configOptionAlreadySet "key") :=
  ⟨(C7_require_unset ["a=1\n", "key=None\n"] "key").2 (by decide),
   (C7_require_unset ["key=2\n"] "key").1.mpr ⟨"key=2\n", by decide, by decide, by decide⟩⟩

/-- C8: when snapshot checks are requested but no `DSMCState` file exists,
and the steady-state check (which runs first and is unaffected) passes,
`diagnosis` fails with `NoSnapshotFiles` having executed only the
steady-state check: none of the collision-probability, particle-sufficiency
or collision-scale-ratio checks runs. -/
theorem C8_no_snapshot_files (v : ValidatorData) (determination_rate threshold mm : ℚ)
    (steady periodicity cp npart mcx : Bool)
    (_hreq : cp = true ∨ npart = true ∨ mcx = true)
    (hfiles : v.dsmc_state_files = [])
    (hsteady : diagnosisSteadyState v.deriv steady periodicity threshold
        (steadyWindowLen v.time.length determination_rate) v.time v.columns
      = Except.ok ()) :
    diagnosis v determination_rate threshold steady periodicity cp npart mcx mm
      = ([CheckName.steadyState], some DiagErr.noSnapshotFiles) := by
  simp only [diagnosis]
  rw [hsteady]
  simp [hfiles]

/-- C8 (witness): a validator with no snapshot files and no tracked columns:
the steady-state check passes and `diagnosis` stops with `NoSnapshotFiles`. -/
theorem C8_witness :
    diagnosis ⟨[0, 1], [], [], [], fun _ _ => 0⟩ (1/10) (1/2) true false true true true 40
      = ([CheckName.steadyState], some DiagErr.noSnapshotFiles) :=
  C8_no_snapshot_files ⟨[0, 1], [], [], [], fun _ _ => 0⟩ (1/10) (1/2) 40 true false
    true true true (Or.inl rfl) rfl rfl

/-- C9: `Tool.__change_value` keeps the number and order of lines, rewrites
every line containing the key to the text `key=value`, and returns every
line not containing the key byte-for-byte unchanged at its original
position. -/
theorem C9_change_value (lines : List String) (key v : String) :
    (changeValue lines key v).length = lines.length
    ∧ ∀ i : ℕ, (changeValue lines key v)[i]?
        = (lines[i]?).map
            (fun line => if strIn key line then key ++ "=" ++ v ++ "\n" else line) := by
  induction lines with
  | nil => exact ⟨rfl, fun i => by simp [changeValue]⟩
  | cons l rest ih =>
    refine ⟨by simpa [changeValue] using ih.1, ?_⟩
    intro i
    cases i with
    | zero => simp [changeValue]
    | succ n =>
      simpa [changeValue] using ih.2 n

/-- C10: every `fit` call that takes the non-converged branch
(`accuracy ≤ |e|`) also mutates the macro-particle key: the resulting file
is the adaptive-option rewrite followed by the rewrite of
`Part-Species{specie}-MacroParticleFactor` with the factor recomputed from
the new pressure and truncated to an integer by `int()`. -/
theorem C10_macro_rewrite (p : ToolParams) (option target column : String)
    (desired rate accuracy steady_value : ℚ) (fmt : ℚ → String) (st : ToolState)
    (post : List (String × ℚ))
    (hpost : ∀ c ∈ post, strIn target c.1 = false)
    (hmatch : strIn target column = true)
    (herr : accuracy ≤ |(steady_value - desired) / desired|) :
    (fit p option target desired rate accuracy fmt
        ((column, steady_value) :: post) st).lines
      = changeValue
          (changeValue st.lines option
            (fmt |st.pressure + st.pressure * rate * ((steady_value - desired) / desired)|))
          (macroParticlesKey p)
          (toString (pyInt (macroParticleFactor p
            |st.pressure + st.pressure * rate * ((steady_value - desired) / desired)|))) := by
  simp only [fit, hmatch, if_true, not_lt.mpr herr, if_false]
  rw [fit_skips_unmatched _ _ _ _ _ _ _ _ _ hpost]
  simp [computeMacroParticles]

/-- C10 (witness): a concrete non-converged step with unit physical
constants: the new pressure is 45, the adaptive option line becomes
`Opt=45.0` and the macro-particle line becomes the truncated factor `45`. -/
theorem C10_witness :
    (fit ⟨1, 1, 1, 1, 1, 1⟩ "Opt" "T" 100 (1/2) (1/20) (fun _ => "45.0")
        [("T", 80)] ⟨50, false,
          ["Opt=None\n", "Part-Species1-MacroParticleFactor=None\n"]⟩).lines
      = ["Opt=45.0\n", "Part-Species1-MacroParticleFactor=45\n"] := by
  rw [C10_macro_rewrite ⟨1, 1, 1, 1, 1, 1⟩ "Opt" "T" "T" 100 (1/2) (1/20) 80
      (fun _ => "45.0") ⟨50, false, ["Opt=None\n", "Part-Species1-MacroParticleFactor=None\n"]⟩
      [] (by simp) (by decide) (by norm_num [abs])]
  rw [show |(50:ℚ) + 50 * (1/2) * ((80 - 100) / 100)| = 45 from by norm_num [abs]]
  rw [show macroParticleFactor ⟨1, 1, 1, 1, 1, 1⟩ 45 = 45 from by
    norm_num [macroParticleFactor]]
  rw [show pyInt 45 = 45 from by norm_num [pyInt]]
  decide
